import Mathlib

/-!
Shallow embedding of the OpenAI completion handler
(mindsdb/integrations/handlers/openai_handler/openai_handler.py).

The embedding covers the parts of the handler exercised by the verified
properties: the batch planner and the sequential/concurrent result merging
inside `_completion`, the `_tidy` post-processing, the batch-size discovery
fallback parsing, the `{{column}}` template compiler and renderer used by
`predict`, the dataframe side effect of `predict`, and `create_validation`.
Python strings are modelled as `List Char` (wrapped in `String` at the
boundaries), dict-shaped completion payloads as structures, and raised
exceptions as `Except String`.
-/

namespace OpenAIHandler

/-- A dataframe cell value.  Only the two shapes the claims exercise are
modelled: Python `str` and Python `int`. -/
inductive PyVal where
  | str (s : List Char)
  | int (n : Int)
deriving DecidableEq

/-- Python `str(x)` for the modelled values. -/
def pyStr : PyVal → List Char
  | .str s => s
  | .int n => (toString n).data

/-- Python `s + v` where `s` is a `str`.  Adding anything but a `str`
raises `TypeError` (this is what pandas does elementwise in
`df['__mdb_prompt'].apply(lambda x: x + atom) + col` when `col` holds
non-strings). -/
def pyAddStr (s : List Char) (v : PyVal) : Except String (List Char) :=
  match v with
  | .str t => .ok (s ++ t)
  | .int _ => .error "TypeError: can only concatenate str to str"

/-- The `usage` sub-dict of an OpenAI completion payload. -/
structure Usage where
  prompt_tokens : Nat
  completion_tokens : Nat
  total_tokens : Nat
deriving DecidableEq

/-- An OpenAI completion payload: the `choices` texts (one per prompt of the
request, in request order) and the `usage` counters. -/
structure Completion where
  choices : List String
  usage : Usage
deriving DecidableEq

/-- Python `s.strip(chars)`: remove leading and trailing characters that are
members of `cs`. -/
def pyStrip (s : String) (cs : List Char) : String :=
  ⟨((s.data.dropWhile (fun c => cs.contains c)).reverse.dropWhile
      (fun c => cs.contains c)).reverse⟩

/-- One choice text as post-processed by `_tidy` (line 158):
`c['text'].strip('\n').strip('')`. -/
def tidyOne (s : String) : String := pyStrip (pyStrip s ['\n']) []

/-- `_tidy` (lines 157-158): post-process every choice text of a payload. -/
def tidy (comp : Completion) : List String := comp.choices.map tidyOne

/-- `math.ceil(n / B)` on naturals, as used at lines 182 and 198. -/
def pyCeil (n B : Nat) : Nat := (n + B - 1) / B

/-- The batches formed by `_completion` (lines 182-188 and 198-206):
the slices `prompts[i*B:(i+1)*B]` for `i in range(math.ceil(len(prompts)/B))`. -/
def batches {α : Type} (l : List α) (B : Nat) : List (List α) :=
  (List.range (pyCeil l.length B)).map (fun i => (l.drop (i * B)).take B)

/-- Elementwise sum of usage counters, as in lines 193-194. -/
def addUsage (u v : Usage) : Usage :=
  ⟨u.prompt_tokens + v.prompt_tokens,
   u.completion_tokens + v.completion_tokens,
   u.total_tokens + v.total_tokens⟩

/-- The sequential accumulation loop of `_completion` (lines 181-194).
`acc` is the `completion` variable (`none` models Python `None`); each list
element is the outcome of one `_submit_completion` call (an exception
propagates as `.error`, aborting the loop exactly as in Python).  On a
subsequent batch both `choices` are extended and `usage` fields summed. -/
def mergeSeqAux : Option Completion → List (Except String Completion) →
    Except String (Option Completion)
  | acc, [] => .ok acc
  | _, .error e :: _ => .error e
  | none, .ok part :: rs => mergeSeqAux (some part) rs
  | some c, .ok part :: rs =>
      mergeSeqAux (some ⟨c.choices ++ part.choices, addUsage c.usage part.usage⟩) rs

/-- The concurrent collection loop of `_completion` (lines 208-213).
Futures are awaited in submission order; `p['choices'].result()` raising
propagates as `.error`.  Note that, unlike the sequential loop, only
`choices` is extended: the `usage` of the first batch is kept untouched. -/
def mergeParAux : Option Completion → List (Except String Completion) →
    Except String (Option Completion)
  | acc, [] => .ok acc
  | _, .error e :: _ => .error e
  | none, .ok part :: rs => mergeParAux (some part) rs
  | some c, .ok part :: rs =>
      mergeParAux (some ⟨c.choices ++ part.choices, c.usage⟩) rs

/-- Whether an `Except` value is a success. -/
def exIsOk {ε α : Type} : Except ε α → Bool
  | .ok _ => true
  | .error _ => false

/-- The batched path of `_completion` with `parallel=False`
(lines 180-194 followed by the final `_tidy` at line 215), parameterised by
the per-batch submission outcome.  A `none` accumulator at the end models the
`TypeError` Python raises when `_tidy(None)` subscripts `None`. -/
def completionBatchedSeq (prompts : List String) (B : Nat)
    (submit : List String → Except String Completion) :
    Except String (List String) :=
  match mergeSeqAux none ((batches prompts B).map submit) with
  | .error e => .error e
  | .ok none => .error "TypeError: NoneType object is not subscriptable"
  | .ok (some comp) => .ok (tidy comp)

/-- The batched path of `_completion` with `parallel=True`
(lines 195-215), parameterised by the per-batch submission outcome.  All
batches are submitted up front; since `submit` is a pure function of the
batch, collecting results in submission order is observationally identical
to the thread pool in the source. -/
def completionBatchedPar (prompts : List String) (B : Nat)
    (submit : List String → Except String Completion) :
    Except String (List String) :=
  match mergeParAux none ((batches prompts B).map submit) with
  | .error e => .error e
  | .ok none => .error "TypeError: NoneType object is not subscriptable"
  | .ok (some comp) => .ok (tidy comp)

/-! ### Batch-size discovery (lines 171-178) -/

/-- Python `pat in s` / `s.find(pat)`: index of the first occurrence of
`pat` in `s`, or `none` when absent. -/
def pyFind (pat : List Char) : List Char → Option Nat
  | [] => if pat.isPrefixOf ([] : List Char) then some 0 else none
  | c :: rest =>
      if pat.isPrefixOf (c :: rest) then some 0
      else (pyFind pat rest).map (· + 1)

/-- Python `s.split(sep)[0]` for a non-empty `sep`: the prefix of `s` up to
the first occurrence of `sep` (all of `s` when `sep` does not occur). -/
def takeUntilSub (sep : List Char) : List Char → List Char
  | [] => []
  | c :: rest =>
      if sep.isPrefixOf (c :: rest) then []
      else c :: takeUntilSub sep rest

/-- Base-10 value of a digit list. -/
def digitsToNat (ds : List Char) : Nat :=
  ds.foldl (fun a c => 10 * a + (c.toNat - 48)) 0

/-- Strip leading and trailing whitespace. -/
def pyStripWs (s : List Char) : List Char :=
  ((s.dropWhile Char.isWhitespace).reverse.dropWhile Char.isWhitespace).reverse

/-- Python `int(s)`: strip whitespace, accept an optional sign followed by
digits, raise `ValueError` (here `none`) otherwise.  (Pythonic underscore
digit grouping is not modelled; no claim exercises it.) -/
def pyInt (s : List Char) : Option Int :=
  match pyStripWs s with
  | [] => none
  | c :: ds =>
      if c = '-' then
        if ds ≠ [] ∧ ds.all Char.isDigit then some (-(digitsToNat ds : Int)) else none
      else if c = '+' then
        if ds ≠ [] ∧ ds.all Char.isDigit then some ((digitsToNat ds : Int)) else none
      else if (c :: ds).all Char.isDigit then some ((digitsToNat (c :: ds) : Int)) else none

/-- The substring the handler recognises in a size-limit rejection
(line 174). -/
def sizeLimitPattern : List Char :=
  "you can currently request up to at most a total of".data

/-- The anchor used to locate the numeric limit (line 175). -/
def totalOfPattern : List Char := "a total of".data

/-- The terminator used to delimit the numeric limit (line 176). -/
def closeParenPattern : List Char := ").".data

/-- `self.max_batch_size` as set in `__init__` (line 23). -/
def defaultMaxBatchSize : Nat := 20

/-- Lines 173-178: given the `user_message` of the `InvalidRequestError`
raised by the probe request, the discovered max batch size.  `none` models
an uncaught exception escaping this code (Python `int` raising
`ValueError`); the inner `none` branch is unreachable because
`sizeLimitPattern` contains `totalOfPattern`. -/
def discoveredMaxBatchSize (msg : List Char) : Option Int :=
  if (pyFind sizeLimitPattern msg).isSome then
    match pyFind totalOfPattern msg with
    | some i => pyInt (takeUntilSub closeParenPattern (msg.drop (i + totalOfPattern.length)))
    | none => none
  else some (Int.ofNat defaultMaxBatchSize)

/-- A size-limit rejection message of the shape the handler parses. -/
def sampleSizeLimitMsg : String :=
  "Too many inputs (you can currently request up to at most a total of 31). Please reduce."

/-- A rejection message that does not match the recognised pattern. -/
def unrecognizedMsg : String := "The quota has been exceeded, try again later."

/-! ### Template compiler and renderer (`predict`, lines 96-120) -/

/-- The `\x7b` character. -/
def lbrace : Char := Char.ofNat 123

/-- The `\x7d` character. -/
def rbrace : Char := Char.ofNat 125

/-- One `re` match of the pattern `(` two opening braces `)(.*?)(` two
closing braces `)`: its start offset, end offset, and matched text `m[0]`. -/
structure RMatch where
  start : Nat
  stop : Nat
  text : List Char
deriving DecidableEq

/-- Locate the earliest closing double brace for a non-greedy `.*?`:
returns the consumed inner text and the remainder after the two closing
braces.  `.` does not match a newline, so the search fails at one. -/
def splitAtClose : List Char → Option (List Char × List Char)
  | [] => none
  | c :: rest =>
      if c = rbrace ∧ rest.head? = some rbrace then some ([], rest.tail)
      else if c = '\n' then none
      else (splitAtClose rest).map (fun p => (c :: p.1, p.2))

/-- Left-to-right scan of `re.finditer` for the double-brace placeholder
pattern.  `fuel` only bounds the recursion; `scanTemplate` supplies enough
for the scan to finish. -/
def scanTemplateF : Nat → List Char → Nat → List RMatch
  | 0, _, _ => []
  | _, [], _ => []
  | fuel + 1, c :: rest, pos =>
      if c = lbrace ∧ rest.head? = some lbrace then
        match splitAtClose rest.tail with
        | some (inn, rem) =>
            ⟨pos, pos + inn.length + 4, lbrace :: lbrace :: (inn ++ [rbrace, rbrace])⟩ ::
              scanTemplateF fuel rem (pos + inn.length + 4)
        | none => scanTemplateF fuel rest (pos + 1)
      else scanTemplateF fuel rest (pos + 1)

/-- `list(re.finditer(pattern, base_template))` at line 98. -/
def scanTemplate (s : List Char) : List RMatch := scanTemplateF (s.length + 1) s 0

/-- Lines 96-110: compile a template into the `columns` list (placeholder
names, braces removed) and the `template` literal-segment list, via the
span-pair arithmetic of lines 105-110.  `none` models the `IndexError` of
line 100 when there is no placeholder. -/
def compileTemplate (base : List Char) :
    Option (List (List Char) × List (List Char)) :=
  match scanTemplate base with
  | [] => none
  | m :: ms =>
      let allMatches := m :: ms
      let first_span := m.start
      let last_span := (ms.getLastD m).stop
      let columns := allMatches.map
        (fun mm => mm.text.filter (fun c => !(c == lbrace) && !(c == rbrace)))
      let spans := (allMatches.map (fun mm => [mm.start, mm.stop])).flatten
      let spans2 := (spans.drop 1).dropLast
      let segs := (spans2.zip (spans2.drop 1)).map
        (fun p => (base.drop p.1).take (p.2 - p.1))
      let template := (base.take first_span :: segs) ++ [base.drop last_span]
      some (columns, template)

/-- The rendering loop of lines 112-120 for one row: walk the `template`
segments, appending each literal and, while column references remain, the
raw (uncoerced) row value right after it.  A non-`str` value makes the
string concatenation raise, as pandas does. -/
def renderRowAux (row : String → PyVal) :
    List Char → List (List Char) → List (List Char) → Except String (List Char)
  | acc, [], _ => .ok acc
  | acc, t :: ts, [] => renderRowAux row (acc ++ t) ts []
  | acc, t :: ts, c :: cs =>
      match pyAddStr (acc ++ t) (row ⟨c⟩) with
      | .error e => .error e
      | .ok acc2 => renderRowAux row acc2 ts cs

/-- Compile a template and render it against a single row, as `predict`
does in template mode (lines 96-120). -/
def templatePrompt (base : String) (row : String → PyVal) : Except String String :=
  match compileTemplate base.data with
  | none => .error "IndexError: list index out of range"
  | some (cols, tmpl) =>
      match renderRowAux row [] tmpl cols with
      | .error e => .error e
      | .ok s => .ok ⟨s⟩

/-- The claim C6 template (double braces written with escapes). -/
def helloTemplate : String :=
  "Hello \x7b\x7bname\x7d\x7d, you are \x7b\x7bage\x7d\x7d."

/-- The claim C6 row. -/
def adaRow : String → PyVal := fun c =>
  if c = "name" then .str "Ada".data
  else if c = "age" then .str "30".data
  else .str []

/-- A one-placeholder template used to exercise uncoerced concatenation. -/
def ageTemplate : String := "Age: \x7b\x7bage\x7d\x7d."

/-- Question+context mode (lines 122-125): both columns are coerced with
`str` before being formatted into the fixed layout. -/
def contextModePrompts (contexts questions : List PyVal) : List String :=
  ((contexts.map pyStr).zip (questions.map pyStr)).map
    (fun p => "Context: " ++ (⟨p.1⟩ : String) ++ "\nQuestion: " ++ (⟨p.2⟩ : String) ++ "\nAnswer: ")

/-- Question-only mode (line 128): the question column coerced with `str`. -/
def questionModePrompts (questions : List PyVal) : List String :=
  questions.map (fun q => (⟨pyStr q⟩ : String))

/-! ### Dataframe effect of `predict` (lines 112-120) -/

/-- A dataframe: named columns in insertion order. -/
abbrev DF := List (String × List PyVal)

/-- The column names of a dataframe, in order. -/
def dfKeys (df : DF) : List String := df.map Prod.fst

/-- Column lookup.  (A missing column raises `KeyError` in pandas; no claim
exercises that path, so the empty column stands in.) -/
def getCol (df : DF) (name : String) : List PyVal :=
  match df.find? (fun p => p.1 == name) with
  | some p => p.2
  | none => []

/-- Row count (pandas keeps all columns the same length). -/
def nRows (df : DF) : Nat :=
  match df with
  | [] => 0
  | p :: _ => p.2.length

/-- `df[name] = vals`: overwrite an existing column in place, or append a
new column at the end, as pandas does. -/
def setCol (df : DF) (name : String) (vals : List PyVal) : DF :=
  if name ∈ dfKeys df then
    df.map (fun p => if p.1 = name then (p.1, vals) else p)
  else df ++ [(name, vals)]

/-- The `i`-th row as a named-value lookup. -/
def rowOf (df : DF) (i : Nat) : String → PyVal :=
  fun c => (getCol df c).getD i (.str [])

/-- The template branch of `predict` (lines 91-120) as a dataframe
transformer: compile the template, render every row, and return the
dataframe as it stands after the call, with the `__mdb_prompt` column set
to the rendered prompts (line 112-120 build it in place and never drop it). -/
def predictTemplateBranch (base : String) (df : DF) : Except String DF :=
  match compileTemplate base.data with
  | none => .error "IndexError: list index out of range"
  | some (cols, tmpl) =>
      match (List.range (nRows df)).mapM
          (fun i => renderRowAux (rowOf df i) [] tmpl cols) with
      | .error e => .error e
      | .ok prompts => .ok (setCol df "__mdb_prompt" (prompts.map PyVal.str))

/-! ### `create_validation` (lines 26-37) -/

/-- `create_validation`, with `args` modelled as the optional list of keys
of the `using` clause (`none` when `'using' not in args`). -/
def create_validation (usingArgs : Option (List String)) : Except String Unit :=
  match usingArgs with
  | none =>
      .error "OpenAI engine requires a USING clause! Refer to its documentation for more details."
  | some u =>
      if "question_column" ∉ u ∧ "prompt_template" ∉ u then
        .error "Either of question_column or prompt_template are required."
      else if "prompt_template" ∈ u ∧ "question_column" ∈ u then
        .error "Please provide either 1) a prompt_template or 2) a question_column and an optional context_column, but not both."
      else .ok ()

/-! ### Claim-worded definition for the tidy refinement -/

/-- Stated from the claim C10 wording, for comparison with `tidyOne`:
the text with leading and trailing newline characters stripped. -/
def specStripNewlines (s : String) : String :=
  ⟨((s.data.dropWhile (fun c => c == '\n')).reverse.dropWhile (fun c => c == '\n')).reverse⟩

/-! ### Concrete instances used by witnesses and counterexamples -/

/-- A concrete per-prompt completion service. -/
def svcW (s : String) : String := s ++ "!"

/-- A concrete per-batch usage report. -/
def usageW (b : List String) : Usage := ⟨b.length, b.length, 2 * b.length⟩

/-- A concrete always-successful submission function. -/
def submitOkW (b : List String) : Except String Completion :=
  .ok ⟨b.map svcW, usageW b⟩

/-- A concrete submission function whose second batch (for batch size 1
over three prompts) fails fatally. -/
def submitFailW (b : List String) : Except String Completion :=
  if b = ["b"] then .error "fatal: bad request" else .ok ⟨b, ⟨1, 1, 2⟩⟩

/-- A concrete submission function reporting the usage figures of claim C3. -/
def submitUsageW (b : List String) : Except String Completion :=
  if b = ["p"] then .ok ⟨["x"], ⟨10, 5, 15⟩⟩ else .ok ⟨["y"], ⟨7, 3, 10⟩⟩

/-- The dataframe of the claim C9 witness before the call. -/
def dfBeforeW : DF := [("name", [PyVal.str "Ada".data])]

/-- The dataframe of the claim C9 witness after the call. -/
def dfAfterW : DF :=
  [("name", [PyVal.str "Ada".data]),
   ("__mdb_prompt", [PyVal.str "Hello Ada".data])]

/-- A one-placeholder greeting template for the claim C9 witness. -/
def helloNameTemplate : String := "Hello \x7b\x7bname\x7d\x7d"

end OpenAIHandler

deriving instance DecidableEq for Except

namespace OpenAIHandler

/-! ### Properties of the batch planner -/

theorem pyCeil_step {B n : Nat} (hB : 0 < B) (hn : 0 < n) :
    pyCeil n B = pyCeil (n - B) B + 1 := by
  unfold pyCeil
  rcases le_or_lt n B with h | h
  · have h1 : n + B - 1 = (n - 1) + B := by omega
    have h2 : n - B = 0 := by omega
    have h3 : (n - 1) / B = 0 := Nat.div_eq_of_lt (by omega)
    have h4 : (0 + B - 1) / B = 0 := Nat.div_eq_of_lt (by omega)
    rw [h1, Nat.add_div_right _ hB, h2]
    omega
  · have h1 : n + B - 1 = (n - 1) + B := by omega
    have h2 : n - B + B - 1 = (n - B - 1) + B := by omega
    have h3 : n - 1 = (n - B - 1) + B := by omega
    rw [h1, h2, Nat.add_div_right _ hB, Nat.add_div_right _ hB, h3,
      Nat.add_div_right _ hB]

theorem batches_nil {α : Type} (B : Nat) : batches ([] : List α) B = [] := by
  have h : pyCeil 0 B = 0 := by
    unfold pyCeil
    rcases Nat.eq_zero_or_pos B with hB | hB
    · subst hB; simp
    · exact Nat.div_eq_of_lt (by omega)
  unfold batches
  simp [h]

theorem batches_cons {α : Type} {B : Nat} (hB : 0 < B) (l : List α) (hl : l ≠ []) :
    batches l B = l.take B :: batches (l.drop B) B := by
  have hn : 0 < l.length := List.length_pos.mpr hl
  unfold batches
  rw [List.length_drop, pyCeil_step hB hn, List.range_succ_eq_map, List.map_cons,
    List.map_map]
  congr 1
  · simp
  · apply List.map_congr_left
    intro i _
    simp [Function.comp, List.drop_drop, Nat.succ_mul, Nat.add_comm]

theorem batches_flatten {α : Type} {B : Nat} (hB : 0 < B) (l : List α) :
    (batches l B).flatten = l := by
  by_cases hl : l = []
  · subst hl; rw [batches_nil B]; rfl
  · rw [batches_cons hB l hl, List.flatten_cons, batches_flatten hB (l.drop B)]
    exact List.take_append_drop B l
termination_by l.length
decreasing_by
  have := List.length_pos.mpr hl
  simp [List.length_drop]
  omega

theorem batches_sizes {α : Type} (l : List α) (B : Nat) :
    ∀ b ∈ batches l B, b.length ≤ B := by
  intro b hb
  unfold batches at hb
  simp only [List.mem_map] at hb
  obtain ⟨i, -, rfl⟩ := hb
  exact List.length_take_le B _

theorem batches_count {α : Type} (l : List α) (B : Nat) :
    (batches l B).length = pyCeil l.length B := by
  unfold batches
  simp

theorem batches_ne_nil {α : Type} {B : Nat} (hB : 0 < B) {l : List α} (hl : l ≠ []) :
    batches l B ≠ [] := by
  rw [batches_cons hB l hl]
  simp

/-! ### Properties of the result-merging loops -/

theorem mergeParAux_some (cs : List Completion) :
    ∀ c : Completion, mergeParAux (some c) (cs.map Except.ok) =
      .ok (some ⟨c.choices ++ (cs.map Completion.choices).flatten, c.usage⟩) := by
  induction cs with
  | nil => intro c; simp [mergeParAux]
  | cons d ds ih => intro c; simp [mergeParAux, ih, List.append_assoc]

theorem mergeParAux_oks (c : Completion) (cs : List Completion) :
    mergeParAux none ((c :: cs).map Except.ok) =
      .ok (some ⟨((c :: cs).map Completion.choices).flatten, c.usage⟩) := by
  simp [mergeParAux, mergeParAux_some]

theorem mergeSeqAux_some (cs : List Completion) :
    ∀ c : Completion, mergeSeqAux (some c) (cs.map Except.ok) =
      .ok (some ⟨c.choices ++ (cs.map Completion.choices).flatten,
        List.foldl addUsage c.usage (cs.map Completion.usage)⟩) := by
  induction cs with
  | nil => intro c; simp [mergeSeqAux]
  | cons d ds ih => intro c; simp [mergeSeqAux, ih, List.append_assoc]

theorem mergeSeqAux_oks (c : Completion) (cs : List Completion) :
    mergeSeqAux none ((c :: cs).map Except.ok) =
      .ok (some ⟨((c :: cs).map Completion.choices).flatten,
        List.foldl addUsage c.usage (cs.map Completion.usage)⟩) := by
  simp [mergeSeqAux, mergeSeqAux_some]

theorem foldl_addUsage (us : List Usage) :
    ∀ u : Usage, List.foldl addUsage u us =
      ⟨u.prompt_tokens + (us.map Usage.prompt_tokens).sum,
       u.completion_tokens + (us.map Usage.completion_tokens).sum,
       u.total_tokens + (us.map Usage.total_tokens).sum⟩ := by
  induction us with
  | nil => intro u; simp
  | cons v vs ih =>
    intro u
    simp only [List.foldl_cons, ih, addUsage, List.map_cons, List.sum_cons,
      Usage.mk.injEq]
    omega

theorem mergeParAux_firstError :
    ∀ (rs : List (Except String Completion)) (acc : Option Completion) (j : Nat)
      (hj : j < rs.length) (e : String),
      rs.get ⟨j, hj⟩ = .error e →
      (∀ k (hk : k < j), exIsOk (rs.get ⟨k, Nat.lt_trans hk hj⟩) = true) →
      mergeParAux acc rs = .error e := by
  intro rs
  induction rs with
  | nil => intro acc j hj; exact absurd hj (Nat.not_lt_zero j)
  | cons r rest ih =>
    intro acc j hj e hget hbefore
    cases j with
    | zero =>
      have hr : r = .error e := by simpa using hget
      subst hr
      cases acc <;> simp [mergeParAux]
    | succ j0 =>
      have hr : exIsOk r = true := by simpa using hbefore 0 (Nat.succ_pos j0)
      cases r with
      | error e0 => simp [exIsOk] at hr
      | ok part =>
        have hj2 : j0 < rest.length := by simpa using hj
        have hget2 : rest.get ⟨j0, hj2⟩ = .error e := by simpa using hget
        have hbefore2 : ∀ k (hk : k < j0),
            exIsOk (rest.get ⟨k, Nat.lt_trans hk hj2⟩) = true := by
          intro k hk
          simpa using hbefore (k + 1) (Nat.succ_lt_succ hk)
        cases acc with
        | none =>
          simp only [mergeParAux]
          exact ih (some part) j0 hj2 e hget2 hbefore2
        | some c =>
          simp only [mergeParAux]
          exact ih _ j0 hj2 e hget2 hbefore2

/-! ### The claims -/

/-- C1: for every prompt list processed under the concurrent policy
(`parallel=True` in `_completion`) and every max batch size `B ≥ 1`, when
every batch submission succeeds and returns one completion per prompt in
batch order, the i-th element of the returned completion list is the
(tidied) completion of the i-th input prompt, for all `i < N`. -/
theorem claim1_order_preservation
    (prompts : List String) (B : Nat) (svc : String → String)
    (usage : List String → Usage) (submit : List String → Except String Completion)
    (hB : 1 ≤ B) (hne : prompts ≠ [])
    (hsub : ∀ b ∈ batches prompts B, submit b = .ok ⟨b.map svc, usage b⟩) :
    ∃ res, completionBatchedPar prompts B submit = .ok res ∧
      res.length = prompts.length ∧
      ∀ i, i < prompts.length →
        res[i]? = (prompts[i]?).map (fun p => tidyOne (svc p)) := by
  have hbne : (batches prompts B).map
      (fun b => (⟨b.map svc, usage b⟩ : Completion)) ≠ [] := by
    have := batches_ne_nil hB hne (B := B)
    simpa using this
  obtain ⟨c, cs, hcc⟩ := List.exists_cons_of_ne_nil hbne
  have hmap : (batches prompts B).map submit = (c :: cs).map Except.ok := by
    calc (batches prompts B).map submit
        = (batches prompts B).map
            (fun b => Except.ok (⟨b.map svc, usage b⟩ : Completion)) :=
          List.map_congr_left hsub
      _ = ((batches prompts B).map
            (fun b => (⟨b.map svc, usage b⟩ : Completion))).map Except.ok := by
          rw [List.map_map]; rfl
      _ = (c :: cs).map Except.ok := by rw [hcc]
  have hchoices : ((c :: cs).map Completion.choices).flatten = prompts.map svc := by
    rw [← hcc, List.map_map]
    have h1 : (Completion.choices ∘ fun b => (⟨b.map svc, usage b⟩ : Completion)) =
        List.map svc := rfl
    rw [h1, ← List.map_flatten, batches_flatten hB]
  refine ⟨prompts.map (fun p => tidyOne (svc p)), ?_, by simp, ?_⟩
  · unfold completionBatchedPar
    rw [hmap, mergeParAux_oks, hchoices]
    show Except.ok (tidy ⟨prompts.map svc, c.usage⟩) = _
    simp [tidy, List.map_map]
  · intro i hi
    simp

/-- C1 witness: the order-preservation theorem at three concrete prompts
with batch size two and an always-successful submitter. -/
theorem claim1_witness :
    (1 ≤ 2 ∧ (["a", "b", "c"] : List String) ≠ []) ∧
    ∃ res, completionBatchedPar ["a", "b", "c"] 2 submitOkW = .ok res ∧
      res.length = 3 ∧
      ∀ i, i < 3 →
        res[i]? = ((["a", "b", "c"] : List String)[i]?).map
          (fun p => tidyOne (svcW p)) :=
  ⟨⟨by decide, by decide⟩,
    claim1_order_preservation ["a", "b", "c"] 2 svcW usageW submitOkW
      (by decide) (by decide) (by decide)⟩

/-- C2: for every prompt list and positive max batch size `B`, the batches
formed by `_completion` each have length at most `B`, concatenate in order
to exactly the original prompt list, and number exactly `ceil(N / B)`. -/
theorem claim2_batch_partition (prompts : List String) (B : Nat) (hB : 1 ≤ B) :
    (∀ b ∈ batches prompts B, b.length ≤ B) ∧
    (batches prompts B).flatten = prompts ∧
    (batches prompts B).length = pyCeil prompts.length B :=
  ⟨batches_sizes prompts B, batches_flatten hB prompts, batches_count prompts B⟩

/-- C2 witness: the partition theorem at three concrete prompts and batch
size two. -/
theorem claim2_witness :
    1 ≤ 2 ∧
    ((∀ b ∈ batches (["p", "q", "r"] : List String) 2, b.length ≤ 2) ∧
      (batches (["p", "q", "r"] : List String) 2).flatten = ["p", "q", "r"] ∧
      (batches (["p", "q", "r"] : List String) 2).length = pyCeil 3 2) :=
  ⟨by decide, claim2_batch_partition ["p", "q", "r"] 2 (by decide)⟩

/-- C3 counterexample: merging two concurrent-policy batches with usage
counters (10, 5, 15) and (7, 3, 10) keeps the first batch's counters
(10, 5, 15) instead of the claimed elementwise sum (17, 8, 25): the
concurrent collection loop never touches `usage`. -/
theorem claim3_counterexample :
    mergeParAux none ((batches ["p", "q"] 1).map submitUsageW) =
      .ok (some ⟨["x", "y"], ⟨10, 5, 15⟩⟩) ∧
    (⟨10, 5, 15⟩ : Usage) ≠ (⟨17, 8, 25⟩ : Usage) := by
  constructor
  · decide
  · decide

/-- C3 amended: under the sequential policy the assembled usage counters
are the elementwise sum of the per-batch counters, while under the
concurrent policy the assembled result keeps the first batch's usage
counters unchanged (only the choices are concatenated). -/
theorem claim3_usage_merge (c : Completion) (cs : List Completion) :
    mergeSeqAux none ((c :: cs).map Except.ok) =
      .ok (some ⟨((c :: cs).map Completion.choices).flatten,
        ⟨((c :: cs).map (fun d => d.usage.prompt_tokens)).sum,
         ((c :: cs).map (fun d => d.usage.completion_tokens)).sum,
         ((c :: cs).map (fun d => d.usage.total_tokens)).sum⟩⟩) ∧
    mergeParAux none ((c :: cs).map Except.ok) =
      .ok (some ⟨((c :: cs).map Completion.choices).flatten, c.usage⟩) := by
  constructor
  · rw [mergeSeqAux_oks, foldl_addUsage]
    simp [List.map_map, Function.comp_def]
  · exact mergeParAux_oks c cs

/-- C4: under the concurrent policy, if the submission of some batch fails
fatally (all earlier batches having succeeded), the whole call surfaces
that error and returns no completion list at all. -/
theorem claim4_all_or_nothing (prompts : List String) (B : Nat)
    (submit : List String → Except String Completion) (e : String) (j : Nat)
    (hj : j < (batches prompts B).length)
    (hfail : submit ((batches prompts B).get ⟨j, hj⟩) = .error e)
    (hbefore : ∀ k (hk : k < j),
      exIsOk (submit ((batches prompts B).get ⟨k, Nat.lt_trans hk hj⟩)) = true) :
    completionBatchedPar prompts B submit = .error e := by
  have hj2 : j < ((batches prompts B).map submit).length := by simpa using hj
  have hget : ((batches prompts B).map submit).get ⟨j, hj2⟩ = .error e := by
    rw [List.get_map]
    exact hfail
  have hbefore2 : ∀ k (hk : k < j),
      exIsOk (((batches prompts B).map submit).get ⟨k, Nat.lt_trans hk hj2⟩) = true := by
    intro k hk
    rw [List.get_map]
    exact hbefore k hk
  have h := mergeParAux_firstError ((batches prompts B).map submit) none j hj2 e
    hget hbefore2
  unfold completionBatchedPar
  rw [h]

/-- C4 witness: with three prompts, batch size one, and a submitter whose
second batch fails fatally, the concurrent call surfaces exactly that
error. -/
theorem claim4_witness :
    completionBatchedPar ["a", "b", "c"] 1 submitFailW = .error "fatal: bad request" :=
  claim4_all_or_nothing ["a", "b", "c"] 1 submitFailW "fatal: bad request" 1
    (by decide) (by decide) (by decide)

/-- C5: during batch-size discovery, a size-limit rejection whose message
does not contain the recognised substring makes the discovered max batch
size equal the configured default `self.max_batch_size = 20`, with no error
raised from the parsing step; when the substring is present, the numeric
limit is extracted from the message text (here, 31 from a sample message). -/
theorem claim5_discovery_fallback :
    (∀ msg : List Char, (pyFind sizeLimitPattern msg).isSome = false →
      discoveredMaxBatchSize msg = some (Int.ofNat defaultMaxBatchSize) ∧
      defaultMaxBatchSize = 20) ∧
    discoveredMaxBatchSize sampleSizeLimitMsg.data = some 31 := by
  constructor
  · intro msg h
    exact ⟨by simp [discoveredMaxBatchSize, h], rfl⟩
  · decide

/-- C5 witness: the fallback branch of the discovery theorem at a concrete
unrecognised message. -/
theorem claim5_witness :
    (pyFind sizeLimitPattern unrecognizedMsg.data).isSome = false ∧
    discoveredMaxBatchSize unrecognizedMsg.data = some (Int.ofNat defaultMaxBatchSize) ∧
    defaultMaxBatchSize = 20 :=
  ⟨by decide, claim5_discovery_fallback.1 unrecognizedMsg.data (by decide)⟩

/-- C6: compiling the template `Hello` + name placeholder + `, you are ` +
age placeholder + `.` and rendering it against the row (name = Ada,
age = 30) produces exactly the prompt `Hello Ada, you are 30.`. -/
theorem claim6_template_round_trip :
    templatePrompt helloTemplate adaRow = .ok "Hello Ada, you are 30." := by decide

/-- C7: a `using` configuration that supplies both `prompt_template` and
`question_column` is rejected by `create_validation` (a pure check run at
model creation, before any prompt is built or any API call is made), and so
is one that supplies neither. -/
theorem claim7_mutual_exclusivity (u : List String) :
    (("prompt_template" ∈ u ∧ "question_column" ∈ u) →
      ∃ msg, create_validation (some u) = .error msg) ∧
    (("prompt_template" ∉ u ∧ "question_column" ∉ u) →
      ∃ msg, create_validation (some u) = .error msg) := by
  constructor
  · rintro ⟨hp, hq⟩
    refine ⟨"Please provide either 1) a prompt_template or 2) a question_column and an optional context_column, but not both.", ?_⟩
    simp [create_validation, hp, hq]
  · rintro ⟨hp, hq⟩
    refine ⟨"Either of question_column or prompt_template are required.", ?_⟩
    simp [create_validation, hp, hq]

/-- C7 witness: the mutual-exclusivity theorem at the configuration holding
both keys and at the empty configuration. -/
theorem claim7_witness :
    (∃ msg, create_validation (some ["prompt_template", "question_column"]) = .error msg) ∧
    (∃ msg, create_validation (some ([] : List String)) = .error msg) :=
  ⟨(claim7_mutual_exclusivity ["prompt_template", "question_column"]).1
      ⟨by decide, by decide⟩,
    (claim7_mutual_exclusivity []).2 ⟨by decide, by decide⟩⟩

/-- C8 counterexample: in template mode the column value is inserted
without `str` coercion, so an integer value reaches the string
concatenation uncoerced and the rendering raises a `TypeError` instead of
producing a prompt — refuting the claim that every mode coerces. -/
theorem claim8_counterexample :
    templatePrompt ageTemplate (fun _ => PyVal.int 30) =
      .error "TypeError: can only concatenate str to str" := by decide

/-- C8 amended: the question+context mode and the question-only mode coerce
every row value to text with `str` before insertion, but the template mode
does not: any non-string (integer) value reaches the concatenation
uncoerced and raises a `TypeError`. -/
theorem claim8_coercion_modes :
    (∀ vs : List PyVal,
      questionModePrompts vs = vs.map (fun q => (⟨pyStr q⟩ : String))) ∧
    (∀ c q : PyVal, contextModePrompts [c] [q] =
      ["Context: " ++ (⟨pyStr c⟩ : String) ++ "\nQuestion: " ++
        (⟨pyStr q⟩ : String) ++ "\nAnswer: "]) ∧
    (∀ n : Int, templatePrompt ageTemplate (fun _ => PyVal.int n) =
      .error "TypeError: can only concatenate str to str") :=
  ⟨fun _ => rfl, fun _ _ => rfl, fun _ => rfl⟩

/-- C9: when a prompt template is configured, `predict` mutates the
caller's dataframe: on success the returned post-call dataframe carries a
`__mdb_prompt` column that was not there before, so the input table is not
unchanged by the call. -/
theorem claim9_mutates_dataframe (base : String) (df df2 : DF)
    (hnot : "__mdb_prompt" ∉ dfKeys df)
    (hok : predictTemplateBranch base df = .ok df2) :
    "__mdb_prompt" ∈ dfKeys df2 ∧ df2 ≠ df := by
  unfold predictTemplateBranch at hok
  split at hok
  · exact absurd hok (by simp)
  · split at hok
    · exact absurd hok (by simp)
    · rename_i prompts hren
      have hdf2 : df2 = setCol df "__mdb_prompt" (prompts.map PyVal.str) := by
        have := hok
        simp only [Except.ok.injEq] at this
        exact this.symm
      have hset : setCol df "__mdb_prompt" (prompts.map PyVal.str) =
          df ++ [("__mdb_prompt", prompts.map PyVal.str)] := by
        unfold setCol
        rw [if_neg hnot]
      rw [hdf2, hset]
      constructor
      · unfold dfKeys
        simp
      · intro hcontra
        have hlen := congrArg List.length hcontra
        simp at hlen

/-- C9 witness: the mutation theorem at a concrete one-row dataframe and a
one-placeholder template; the post-call dataframe carries the rendered
prompt in `__mdb_prompt`. -/
theorem claim9_witness :
    ("__mdb_prompt" ∉ dfKeys dfBeforeW ∧
      predictTemplateBranch helloNameTemplate dfBeforeW = .ok dfAfterW) ∧
    ("__mdb_prompt" ∈ dfKeys dfAfterW ∧ dfAfterW ≠ dfBeforeW) :=
  ⟨⟨by decide, by decide⟩,
    claim9_mutates_dataframe helloNameTemplate dfBeforeW dfAfterW
      (by decide) (by decide)⟩

/-- C10: every completion text returned to the caller is the service's
text with leading and trailing newline characters stripped: `_tidy`'s
`strip` with a newline equals the stripping stated by the claim, the
subsequent `strip` with an empty character set is a no-op, and the result
is not the verbatim text. -/
theorem claim10_tidy_strips_newlines :
    (∀ s : String, tidyOne s = specStripNewlines s) ∧
    (∀ s : String, pyStrip s [] = s) ∧
    tidyOne "\nhi\n" = "hi" ∧ ("\nhi\n" : String) ≠ "hi" := by
  have hdrop : ∀ l : List Char, l.dropWhile (fun c => ([] : List Char).contains c) = l := by
    intro l
    cases l <;> simp [List.dropWhile, List.contains, List.elem]
  have hempty : ∀ s : String, pyStrip s [] = s := by
    intro s
    unfold pyStrip
    rw [hdrop, hdrop, List.reverse_reverse]
  refine ⟨?_, hempty, by decide, by decide⟩
  intro s
  rw [tidyOne, hempty]
  have hpred : (fun c => (['\n'] : List Char).contains c) = (fun c : Char => c == '\n') := by
    funext c
    cases hc : c == '\n' <;> simp [List.contains, List.elem, hc]
  unfold pyStrip specStripNewlines
  rw [hpred]

end OpenAIHandler

